import Mathlib

/-!
Verification development for the Civic-Connect map view core: the
real-time clustering and live-position engine implemented by the
feature-complete `MapView` component (issue feed subscription handler,
geolocation watcher callbacks, viewport move handler, pin and cluster
click handlers) together with its spatial-index configuration.

Numbers are modelled as rationals, JavaScript optional or nullable
values as `Option`, and the component state as an explicit record that
the event handlers transform.
-/

namespace CivicConnect

/-- Backend timestamp value (Firestore Timestamp): presence is what the
feed filter checks; the payload is opaque to the map view logic. -/
structure Timestamp where
  seconds : Int
  nanoseconds : Int
deriving DecidableEq

/-- Location of a validated issue record: lat, lng and address, as in
the Issue type of the repository. -/
structure Location where
  lat : ℚ
  lng : ℚ
  address : String
deriving DecidableEq

/-- A validated issue record, as in the Issue type of the repository. -/
structure Issue where
  id : String
  userId : String
  userName : String
  category : String
  description : String
  photoUrl : String
  location : Location
  status : String
  createdAt : Timestamp
deriving DecidableEq

/-- Raw location object of an untyped backend document: each field may
be null or absent. -/
structure RawLocation where
  lat : Option ℚ
  lng : Option ℚ
  address : Option String
deriving DecidableEq

/-- An untyped document as delivered by a feed snapshot, before the
validity filter of the onSnapshot handler runs. -/
structure RawDoc where
  id : String
  userId : String
  userName : String
  category : String
  description : String
  photoUrl : String
  location : Option RawLocation
  status : String
  createdAt : Option Timestamp
deriving DecidableEq

/-- The validity condition of the onSnapshot handler: the document has
a location object, its lat and lng are non-null, and createdAt is
present (data.location, data.location.lat, data.location.lng,
data.createdAt checks of the source). -/
def isValidDoc (d : RawDoc) : Bool :=
  match d.location with
  | none => false
  | some loc => loc.lat.isSome && loc.lng.isSome && d.createdAt.isSome

/-- Conversion of a raw document into a validated Issue, succeeding
exactly when the onSnapshot validity condition holds; mirrors the
push of the spread document into issuesData. -/
def parseIssue (d : RawDoc) : Option Issue :=
  match d.location, d.createdAt with
  | some loc, some ts =>
    match loc.lat, loc.lng with
    | some la, some ln =>
      some { id := d.id, userId := d.userId, userName := d.userName,
             category := d.category, description := d.description,
             photoUrl := d.photoUrl,
             location := { lat := la, lng := ln, address := loc.address.getD "" },
             status := d.status, createdAt := ts }
    | _, _ => none
  | _, _ => none

/-- The onSnapshot handler body: iterate over the snapshot documents
and keep exactly the valid ones, in order, as Issue records. -/
def snapshotIssues (docs : List RawDoc) : List Issue :=
  docs.filterMap parseIssue

/-- A GeoJSON point feature produced by the points useMemo: properties
carry the issue id, the category and the captured issue object, the
geometry carries lng and lat. -/
structure MapPoint where
  issueId : String
  category : String
  issue : Issue
  lng : ℚ
  lat : ℚ
deriving DecidableEq

/-- Projection of one validated issue into its map point, as in the
points useMemo. -/
def pointOfIssue (i : Issue) : MapPoint :=
  { issueId := i.id, category := i.category, issue := i,
    lng := i.location.lng, lat := i.location.lat }

/-- The rendered point set: the points useMemo maps every issue of the
current issues state to a point feature. -/
def mapPoints (issues : List Issue) : List MapPoint :=
  issues.map pointOfIssue

theorem parseIssue_isSome (d : RawDoc) : (parseIssue d).isSome = isValidDoc d := by
  rcases d with ⟨i, u, n, c, de, ph, loc, st, ca⟩
  rcases loc with _ | ⟨la, ln, ad⟩
  · rfl
  · rcases ca with _ | ts <;> rcases la with _ | la <;> rcases ln with _ | ln <;> rfl

/-- Camera view state of the map: longitude, latitude and zoom, as in
the viewState useState. -/
structure ViewState where
  longitude : ℚ
  latitude : ℚ
  zoom : ℚ
deriving DecidableEq

/-- Geolocation error codes of the watchPosition error callback switch. -/
inductive GeoErrorCode where
  | permissionDenied
  | positionUnavailable
  | timeout
  | unknownErr
deriving DecidableEq

/-- The user facing message chosen by the error callback switch for
each geolocation error code. -/
def errorMessage : GeoErrorCode → String
  | .permissionDenied => "Location access denied. Please enable it in your browser settings."
  | .positionUnavailable => "Location information is unavailable."
  | .timeout => "The request to get user location timed out."
  | .unknownErr => "Could not get your location."

/-- The component state of the feature-complete MapView: the useState
hooks, plus the live-subscription bookkeeping of the mount effect
(watch id, and flags recording whether the geolocation watch and the
feed subscription are still active). -/
structure MapState where
  issues : List Issue
  selectedIssue : Option Issue
  currentUserPosition : Option (ℚ × ℚ)
  isInitialLoad : Bool
  locationError : Option String
  bounds : Option (List ℚ)
  zoom : ℚ
  viewState : ViewState
  isMobile : Bool
  watchId : Option ℚ
  watchActive : Bool
  feedActive : Bool
deriving DecidableEq

/-- Initial component state: the useState initial values (issues empty,
no selection, no position, initial load true, no error, bounds
undefined, zoom 16, default NYC view state), before the mount effect
runs. -/
def initState (isMobile : Bool) : MapState :=
  { issues := [], selectedIssue := none, currentUserPosition := none,
    isInitialLoad := true, locationError := none, bounds := none,
    zoom := 16,
    viewState := { longitude := -74006/1000, latitude := 407128/10000, zoom := 12 },
    isMobile := isMobile, watchId := none, watchActive := false,
    feedActive := false }

/-- The watchPosition success callback: record the new position, on the
first sample recenter the view (zoom 16 on mobile, 14 otherwise) and
leave the initial-load state, and clear any location error. -/
def geoSampleHandler (s : MapState) (latitude longitude : ℚ) : MapState :=
  let s1 := { s with currentUserPosition := some (latitude, longitude) }
  let s2 :=
    if s1.isInitialLoad then
      { s1 with
        viewState := { longitude := longitude, latitude := latitude,
                       zoom := if s1.isMobile then 16 else 14 },
        isInitialLoad := false }
    else s1
  { s2 with locationError := none }

/-- The watchPosition error callback: set the user facing message for
the error code, and leave the initial-load state if still in it. The
callback does not cancel or restart the watch. -/
def geoErrorHandler (s : MapState) (c : GeoErrorCode) : MapState :=
  let s1 := { s with locationError := some (errorMessage c) }
  if s1.isInitialLoad then { s1 with isInitialLoad := false } else s1

/-- Events processed by the mounted component: a geolocation sample, a
geolocation error, the mount-time unsupported-geolocation branch, and a
feed snapshot. -/
inductive MEvent where
  | geoSample (latitude longitude : ℚ)
  | geoErr (c : GeoErrorCode)
  | geoUnsupported
  | feedSnapshot (docs : List RawDoc)

/-- One step of the component state machine: dispatch an event to the
corresponding handler of the source. The feed snapshot handler only
replaces the issues list (filtered for validity); it touches no other
field, in particular not the selection. -/
def step (s : MapState) (e : MEvent) : MapState :=
  match e with
  | .geoSample la ln => geoSampleHandler s la ln
  | .geoErr c => geoErrorHandler s c
  | .geoUnsupported =>
      { s with locationError := some "Geolocation is not supported by this browser.",
               isInitialLoad := false }
  | .feedSnapshot docs => { s with issues := snapshotIssues docs }

/-- Run the state machine over a list of events in order. -/
def runSteps (s : MapState) : List MEvent → MapState
  | [] => s
  | e :: es => runSteps (step s e) es

/-- The mount effect: when geolocation is supported start the watch
(recording the id returned by watchPosition), otherwise run the
unsupported branch; in both cases subscribe to the issue feed. -/
def mount (s : MapState) (geoSupported : Bool) (id : ℚ) : MapState :=
  let s1 :=
    if geoSupported then { s with watchId := some id, watchActive := true }
    else step { s with watchId := none, watchActive := false } .geoUnsupported
  { s1 with feedActive := true }

/-- Truthiness of the optional numeric watch id, as JavaScript
evaluates it in the cleanup guard: absent and zero are falsy. -/
def truthyNum : Option ℚ → Bool
  | none => false
  | some q => decide (q ≠ 0)

/-- The effect cleanup run on unmount: always unsubscribe from the
feed, and clear the geolocation watch only when the recorded watch id
is truthy, mirroring the if (watchId) guard of the source. -/
def cleanup (s : MapState) : MapState :=
  let s1 := { s with feedActive := false }
  if truthyNum s1.watchId then { s1 with watchActive := false } else s1

/-- Subscription-aware delivery: a geolocation callback only runs while
the watch is active and a snapshot callback only runs while the feed
subscription is active. Modelled from the spec: after cancellation no
further callbacks fire (post-cancellation silence of the platform
geolocation API and of the feed subscription; the subscription
plumbing itself is not in src). The mount-time unsupported branch is
not a subscription callback and is passed through. -/
def deliver (s : MapState) (e : MEvent) : MapState :=
  match e with
  | .geoSample _ _ => if s.watchActive then step s e else s
  | .geoErr _ => if s.watchActive then step s e else s
  | .geoUnsupported => step s e
  | .feedSnapshot _ => if s.feedActive then step s e else s

/-- The popup onClose handler: clear the selection. -/
def dismissSelection (s : MapState) : MapState :=
  { s with selectedIssue := none }

/-- A programmatic camera command issued through mapRef.flyTo. -/
structure FlyToCmd where
  centerLng : ℚ
  centerLat : ℚ
  zoom : ℚ
  speed : ℚ
deriving DecidableEq

/-- The handlePinClick handler: record the clicked issue as selected
and fly to its coordinates at zoom max(16, current zoom). -/
def handlePinClick (s : MapState) (issue : Issue) : MapState × FlyToCmd :=
  ({ s with selectedIssue := some issue },
   { centerLng := issue.location.lng, centerLat := issue.location.lat,
     zoom := max 16 s.zoom, speed := 6/5 })

/-- One raw camera-move event as seen by the onMove handler: the new
view state and the flattened bounds array of the map. -/
structure MoveEvt where
  vsLongitude : ℚ
  vsLatitude : ℚ
  vsZoom : ℚ
  newBounds : List ℚ

/-- The onMove handler: always store the new view state; store the new
zoom only when it differs from the current zoom; store the new bounds
only when their canonical (stringified) form differs from the stored
bounds. List equality models string equality of the stringified
flattened bounds arrays. -/
def onMove (s : MapState) (e : MoveEvt) : MapState :=
  let s1 := { s with viewState := ⟨e.vsLongitude, e.vsLatitude, e.vsZoom⟩ }
  let s2 := if e.vsZoom ≠ s1.zoom then { s1 with zoom := e.vsZoom } else s1
  if some e.newBounds ≠ s2.bounds then { s2 with bounds := some e.newBounds } else s2

/-- The popup renders from the selectedIssue state: the issue object
captured at click time, or nothing when no selection is active. -/
def popupIssue (s : MapState) : Option Issue :=
  s.selectedIssue

/-- Configuration of the spatial index: the fixed pixel cluster radius
and the maximum zoom at which merging is still performed. -/
structure SCOptions where
  radius : ℕ
  maxZoom : Nat
deriving DecidableEq

/-- The options passed to useSupercluster in the source: radius 75,
maxZoom 20. -/
def mapViewOptions : SCOptions :=
  { radius := 75, maxZoom := 20 }

/-- Resolution of the projected coordinate grid of the index model:
coordinates are integer pixel positions at this zoom, the finest zoom
level the configured index distinguishes. -/
def worldZoom : Nat := 20

/-- A point of the spatial index in projected world coordinates, on
the integer pixel grid of worldZoom, carrying its issue payload. -/
structure IdxPoint where
  x : ℤ
  y : ℤ
  issue : Issue
deriving DecidableEq

/-- A cluster-query result entry: a leaf wrapping one record, or an
aggregate with a centroid, a point count and its member points (the
member list doubles as the opaque expansion handle). -/
inductive SCluster where
  | leaf (p : IdxPoint)
  | agg (x y : ℚ) (pointCount : Nat) (members : List IdxPoint)
deriving DecidableEq

/-- Number of records represented by a query result entry. -/
def SCluster.count : SCluster → Nat
  | .leaf _ => 1
  | .agg _ _ n _ => n

/-- Whether a query result entry is an aggregate cluster. -/
def SCluster.isAggregate : SCluster → Bool
  | .leaf _ => false
  | .agg _ _ _ _ => true

/-- Modelled from the spec: two points merge at zoom z exactly when
their pixel distance at zoom z is within the fixed cluster radius
(effective pixel radius independent of zoom). A worldZoom-pixel
distance d corresponds to d times 2 to the (z - worldZoom) pixels at
zoom z, so the squared comparison scales the squared distance by 4 to
the z and the squared radius by 4 to the worldZoom. The clustering
library is not in src. -/
def withinRadius (opts : SCOptions) (z : Nat) (p q : IdxPoint) : Bool :=
  decide
    (((p.x - q.x).natAbs ^ 2 + ((p.y - q.y).natAbs) ^ 2) * 4 ^ z ≤
      opts.radius ^ 2 * 4 ^ worldZoom)

/-- Centroid of a nonempty member list, the weighted mean of the
coordinates. -/
def centroid (l : List IdxPoint) : ℚ × ℚ :=
  (((l.map (fun p => p.x)).sum : ℚ) / l.length,
   ((l.map (fun p => p.y)).sum : ℚ) / l.length)

/-- Modelled from the spec: greedy spatial grouping at a zoom level, in
input order (the documented deterministic order): the first unvisited
point absorbs every later point within the cluster radius, forming an
aggregate when it absorbs at least one and a leaf otherwise. Fuel is
the list length, which each round strictly consumes. -/
def greedyAux (opts : SCOptions) (z : Nat) : Nat → List IdxPoint → List SCluster
  | _, [] => []
  | 0, _ :: _ => []
  | fuel + 1, p :: rest =>
    let near := rest.filter (fun q => withinRadius opts z p q)
    let far := rest.filter (fun q => !withinRadius opts z p q)
    let grp := p :: near
    (if near.length = 0 then SCluster.leaf p
     else SCluster.agg (centroid grp).1 (centroid grp).2 grp.length grp)
      :: greedyAux opts z fuel far

/-- Modelled from the spec: the cluster query at a zoom level. Beyond
the max-zoom threshold no merging is performed and every record is a
leaf; at or below it the greedy grouping runs with the radius scaled
for that zoom. -/
def clusterQuery (opts : SCOptions) (pts : List IdxPoint) (z : Nat) : List SCluster :=
  if opts.maxZoom < z then pts.map SCluster.leaf
  else greedyAux opts z pts.length pts

/-- Modelled from the spec: the precomputed expansion zoom of a
cluster, the minimum zoom at which its member set splits into at least
two query entries; a cluster that never splits while merging is
enabled expands only at maxZoom + 1, where every record is a leaf.
The clustering library is not in src. -/
def getClusterExpansionZoom (opts : SCOptions) (members : List IdxPoint) : Nat :=
  (((List.range (opts.maxZoom + 2)).find?
      (fun z => decide (2 ≤ (clusterQuery opts members z).length))).getD (opts.maxZoom + 1))

/-- The cluster Marker onClick handler of the source: read the
expansion zoom of the tapped cluster, clamp it with Math.min(_, 20),
and fly to the cluster centroid at that zoom; the component state is
not modified. -/
def clusterOnClick (s : MapState) (members : List IdxPoint) (clusterLng clusterLat : ℚ) :
    MapState × FlyToCmd :=
  let expansionZoom : Nat := min (getClusterExpansionZoom mapViewOptions members) 20
  (s, { centerLng := clusterLng, centerLat := clusterLat,
        zoom := (expansionZoom : ℚ), speed := 6/5 })

/-- Concrete timestamp fixture. -/
def tsA : Timestamp := ⟨1700000000, 0⟩

/-- Concrete valid issue fixture. -/
def issueA : Issue :=
  { id := "a", userId := "u1", userName := "Alice", category := "Pothole",
    description := "deep pothole", photoUrl := "http://img/a.jpg",
    location := { lat := 40, lng := -74, address := "1 Main St" },
    status := "pending", createdAt := tsA }

/-- Second concrete valid issue fixture. -/
def issueB : Issue :=
  { issueA with id := "b", description := "second report" }

/-- Concrete valid raw document, parsing to issueA. -/
def docA : RawDoc :=
  { id := "a", userId := "u1", userName := "Alice", category := "Pothole",
    description := "deep pothole", photoUrl := "http://img/a.jpg",
    location := some { lat := some 40, lng := some (-74), address := some "1 Main St" },
    status := "pending", createdAt := some tsA }

/-- Concrete invalid raw document: its location.lat is null. -/
def docBad : RawDoc :=
  { docA with
    id := "bad",
    location := some { lat := none, lng := some (-74), address := some "2 Main St" } }

theorem step_initialLoad_mono (s : MapState) (e : MEvent)
    (h : s.isInitialLoad = false) : (step s e).isInitialLoad = false := by
  cases e with
  | geoSample la ln => simp [step, geoSampleHandler, h]
  | geoErr c => simp [step, geoErrorHandler, h]
  | geoUnsupported => rfl
  | feedSnapshot docs => simpa [step] using h

/-- Events whose arrival the spec names as the exit triggers of the
initial-load gate: the first position sample, and the terminal
watcher failures (permission denied, geolocation unsupported). -/
def readyTrigger : MEvent → Bool
  | .geoSample _ _ => true
  | .geoErr GeoErrorCode.permissionDenied => true
  | .geoUnsupported => true
  | _ => false

theorem step_trigger_exits (s : MapState) (e : MEvent)
    (h : readyTrigger e = true) : (step s e).isInitialLoad = false := by
  cases e with
  | geoSample la ln =>
    by_cases hi : s.isInitialLoad <;> simp [step, geoSampleHandler, hi]
  | geoErr c =>
    by_cases hi : s.isInitialLoad <;> simp [step, geoErrorHandler, hi]
  | geoUnsupported => rfl
  | feedSnapshot docs => simp [readyTrigger] at h

theorem runSteps_initialLoad_mono (evs : List MEvent) (s : MapState)
    (h : s.isInitialLoad = false) : (runSteps s evs).isInitialLoad = false := by
  induction evs generalizing s with
  | nil => simpa [runSteps] using h
  | cons e es ih => exact ih _ (step_initialLoad_mono s e h)

theorem runSteps_exits_aux (evs : List MEvent) :
    ∀ s : MapState, (∃ e ∈ evs, readyTrigger e = true) →
      (runSteps s evs).isInitialLoad = false := by
  induction evs with
  | nil => intro s h; simp at h
  | cons e es ih =>
    intro s h
    rcases h with ⟨e0, he0, ht⟩
    rcases List.mem_cons.mp he0 with rfl | hmem
    · exact runSteps_initialLoad_mono es _ (step_trigger_exits s e0 ht)
    · exact ih _ ⟨e0, hmem, ht⟩

/-- C1 counterexample: with issue a selected, a feed snapshot that no
longer contains a record with id a does not clear the selection: the
onSnapshot handler only replaces the issues list, so the selection
still holds the captured issue object and the detail popup stays
rendered. -/
theorem feed_removal_keeps_selection_cex :
    (step { initState false with issues := [issueA], selectedIssue := some issueA }
        (MEvent.feedSnapshot [])).selectedIssue = some issueA
  ∧ (step { initState false with issues := [issueA], selectedIssue := some issueA }
        (MEvent.feedSnapshot [])).selectedIssue ≠ none := by
  refine ⟨rfl, ?_⟩
  simp [step, snapshotIssues]

/-- C1 amended: a feed snapshot never changes the selection state,
whether or not the selected record survives; the selection is cleared
only by explicit user dismissal (the popup onClose handler). -/
theorem snapshot_selection_unchanged (s : MapState) (docs : List RawDoc) :
    (step s (MEvent.feedSnapshot docs)).selectedIssue = s.selectedIssue
  ∧ (dismissSelection s).selectedIssue = none :=
  ⟨rfl, rfl⟩

theorem snapshotIssues_length (docs : List RawDoc) :
    (snapshotIssues docs).length = docs.countP (fun d => isValidDoc d) := by
  induction docs with
  | nil => rfl
  | cons d ds ih =>
    unfold snapshotIssues at ih ⊢
    rw [List.filterMap_cons, List.countP_cons]
    cases h : parseIssue d with
    | none =>
      have hv : isValidDoc d = false := by
        have hs := parseIssue_isSome d
        rw [h] at hs
        simpa using hs.symm
      simp [hv, ih]
    | some i =>
      have hv : isValidDoc d = true := by
        have hs := parseIssue_isSome d
        rw [h] at hs
        simpa using hs.symm
      simp [hv, ih]

/-- C3: a record of a feed snapshot is included in the rendered point
set exactly when its location object, location.lat, location.lng and
creation timestamp are all present and non-null; the number M of
rendered points equals the count of valid records and satisfies M less
than or equal to N, the snapshot size; exclusion is silent, the
handler being a total function that simply drops invalid records. -/
theorem rendered_points_validity (docs : List RawDoc) :
    (∀ d : RawDoc, (parseIssue d).isSome = isValidDoc d)
  ∧ (mapPoints (snapshotIssues docs)).length = docs.countP (fun d => isValidDoc d)
  ∧ (mapPoints (snapshotIssues docs)).length ≤ docs.length
  ∧ (∀ d, d ∈ docs → ∀ i, parseIssue d = some i →
        pointOfIssue i ∈ mapPoints (snapshotIssues docs))
  ∧ (∀ pt, pt ∈ mapPoints (snapshotIssues docs) →
        ∃ d, d ∈ docs ∧ isValidDoc d = true ∧ parseIssue d = some pt.issue) := by
  refine ⟨parseIssue_isSome, ?_, ?_, ?_, ?_⟩
  · simpa [mapPoints] using snapshotIssues_length docs
  · calc (mapPoints (snapshotIssues docs)).length
        = docs.countP (fun d => isValidDoc d) := by
          simpa [mapPoints] using snapshotIssues_length docs
      _ ≤ docs.length := List.countP_le_length _
  · intro d hd i hi
    exact List.mem_map_of_mem pointOfIssue (List.mem_filterMap.mpr ⟨d, hd, hi⟩)
  · intro pt hpt
    rcases List.mem_map.mp hpt with ⟨i, hi, rfl⟩
    rcases List.mem_filterMap.mp hi with ⟨d, hd, hpd⟩
    refine ⟨d, hd, ?_, ?_⟩
    · have hs := parseIssue_isSome d
      rw [hpd] at hs
      simpa using hs.symm
    · simpa [pointOfIssue] using hpd

/-- Witness for C3 at a concrete two-document snapshot with one valid
and one invalid record. -/
theorem rendered_points_validity_witness :
    pointOfIssue issueA ∈ mapPoints (snapshotIssues [docA, docBad])
  ∧ (mapPoints (snapshotIssues [docA, docBad])).length = 1 :=
  ⟨(rendered_points_validity [docA, docBad]).2.2.2.1 docA (by simp) issueA (by decide),
   by decide⟩

/-- C4: the controller starts with the initial-load gate up
(AwaitingLocation on mount), any single position sample or terminal
watcher failure (denied or unsupported) takes the gate down, and every
event trace containing such an event ends with the gate down: the view
does not block in the loading state forever when location is denied or
geolocation is unsupported. -/
theorem awaiting_location_liveness (m : Bool) (s : MapState) (evs : List MEvent)
    (h : ∃ e ∈ evs, readyTrigger e = true) :
    (initState m).isInitialLoad = true
  ∧ (∀ e, readyTrigger e = true → (step s e).isInitialLoad = false)
  ∧ (runSteps s evs).isInitialLoad = false :=
  ⟨rfl, fun e he => step_trigger_exits s e he, runSteps_exits_aux evs s h⟩

/-- Witness for C4 on the concrete trace of a single permission-denied
failure delivered to the freshly mounted state. -/
theorem awaiting_location_liveness_witness :
    (initState false).isInitialLoad = true
  ∧ (∀ e, readyTrigger e = true →
        (step (initState false) e).isInitialLoad = false)
  ∧ (runSteps (initState false)
        [MEvent.geoErr GeoErrorCode.permissionDenied]).isInitialLoad = false :=
  awaiting_location_liveness false (initState false)
    [MEvent.geoErr GeoErrorCode.permissionDenied]
    ⟨MEvent.geoErr GeoErrorCode.permissionDenied, by simp, rfl⟩

/-- C5 counterexample: the cleanup guard is the JavaScript truthiness
check if (watchId), so a mounted component whose watchPosition call
returned the id 0 never clears its geolocation watch on unmount: the
watch stays active and a later sample still updates the user position,
while the feed subscription is cancelled. -/
theorem cleanup_watchId_zero_cex :
    (cleanup (mount (initState false) true 0)).watchActive = true
  ∧ (cleanup (mount (initState false) true 0)).feedActive = false
  ∧ (deliver (cleanup (mount (initState false) true 0))
        (MEvent.geoSample 1 2)).currentUserPosition = some (1, 2) := by
  refine ⟨?_, ?_, ?_⟩ <;> decide

/-- C5 amended: on disposal the feed subscription is always cancelled,
and the geolocation watch is cancelled whenever the recorded watch id
is truthy (the guard skips a watch id of 0); after such a disposal no
further geolocation or feed callback changes the state, and a second
disposal is a no-op rather than an error. -/
theorem cleanup_cancels_subscriptions (s : MapState)
    (hw : truthyNum s.watchId = true ∨ s.watchActive = false) :
    (cleanup s).feedActive = false
  ∧ (cleanup s).watchActive = false
  ∧ (∀ la ln : ℚ, deliver (cleanup s) (MEvent.geoSample la ln) = cleanup s)
  ∧ (∀ c : GeoErrorCode, deliver (cleanup s) (MEvent.geoErr c) = cleanup s)
  ∧ (∀ docs : List RawDoc, deliver (cleanup s) (MEvent.feedSnapshot docs) = cleanup s)
  ∧ cleanup (cleanup s) = cleanup s := by
  have hax : (cleanup s).watchActive = false := by
    rcases hw with hw | hw
    · simp [cleanup, hw]
    · by_cases ht : truthyNum s.watchId <;> simp [cleanup, ht, hw]
  have hfx : (cleanup s).feedActive = false := by
    by_cases ht : truthyNum s.watchId <;> simp [cleanup, ht]
  refine ⟨hfx, hax, ?_, ?_, ?_, ?_⟩
  · intro la ln
    simp [deliver, hax]
  · intro c
    simp [deliver, hax]
  · intro docs
    simp [deliver, hfx]
  · by_cases ht : truthyNum s.watchId <;> simp [cleanup, ht]

/-- Witness for C5 amended at a concrete mounted state whose watch id
is the truthy value 7. -/
theorem cleanup_cancels_subscriptions_witness :
    (cleanup (mount (initState false) true 7)).feedActive = false
  ∧ (cleanup (mount (initState false) true 7)).watchActive = false :=
  ⟨(cleanup_cancels_subscriptions (mount (initState false) true 7)
      (Or.inl (by decide))).1,
   (cleanup_cancels_subscriptions (mount (initState false) true 7)
      (Or.inl (by decide))).2.1⟩

/-- C6: the inputs fed to the spatial index (the stored zoom and the
stored canonicalized bounds) change on a camera-move event exactly
when the new bounds differ from the stored bounds under canonical
array equality or the zoom differs from the stored zoom; an event
carrying identical bounds and an unchanged zoom leaves both unchanged,
emitting no recompute signal. -/
theorem viewport_recompute_iff (s : MapState) (e : MoveEvt) :
    ((onMove s e).zoom = s.zoom ∧ (onMove s e).bounds = s.bounds)
  ↔ (e.vsZoom = s.zoom ∧ some e.newBounds = s.bounds) := by
  unfold onMove
  by_cases hz : e.vsZoom = s.zoom <;> by_cases hb : some e.newBounds = s.bounds <;>
    simp [hz, hb]

/-- C7: clicking a pin records the issue as selected and issues a
fly-to centered on the issue coordinates at zoom max(16, current
zoom), which is never below the current zoom and never below the
minimum focus zoom 16. -/
theorem pin_click_zoom (s : MapState) (i : Issue) :
    (handlePinClick s i).1.selectedIssue = some i
  ∧ (handlePinClick s i).2.centerLng = i.location.lng
  ∧ (handlePinClick s i).2.centerLat = i.location.lat
  ∧ (handlePinClick s i).2.zoom = max 16 s.zoom
  ∧ s.zoom ≤ (handlePinClick s i).2.zoom
  ∧ (16 : ℚ) ≤ (handlePinClick s i).2.zoom :=
  ⟨rfl, rfl, rfl, rfl, le_max_right 16 s.zoom, le_max_left 16 s.zoom⟩

/-- Failure kinds of the position watcher, including the mount-time
unsupported case alongside the error-callback codes. -/
inductive WatcherFailure where
  | errCode (c : GeoErrorCode)
  | unsupported
deriving DecidableEq

/-- Modelled from the spec: which watcher failures are terminal for
the position stream, after which no further samples arrive: permission
denial and unsupported geolocation; unavailable, timeout and unknown
errors leave the stream live. The platform stream itself is not in
src. -/
def watcherTerminal : WatcherFailure → Bool
  | .errCode GeoErrorCode.permissionDenied => true
  | .unsupported => true
  | _ => false

/-- C9: a timeout error is not terminal: the error callback neither
cancels nor restarts the watch (the watch-active flag and the watch id
are untouched), a subsequent successful sample still updates the user
position, and in the failure classification only denial and
unsupported are terminal. -/
theorem timeout_not_terminal (s : MapState) (la ln : ℚ)
    (h : s.watchActive = true) :
    (deliver s (MEvent.geoErr GeoErrorCode.timeout)).watchActive = true
  ∧ (deliver s (MEvent.geoErr GeoErrorCode.timeout)).watchId = s.watchId
  ∧ (deliver (deliver s (MEvent.geoErr GeoErrorCode.timeout))
        (MEvent.geoSample la ln)).currentUserPosition = some (la, ln)
  ∧ watcherTerminal (WatcherFailure.errCode GeoErrorCode.timeout) = false
  ∧ watcherTerminal (WatcherFailure.errCode GeoErrorCode.permissionDenied) = true
  ∧ watcherTerminal WatcherFailure.unsupported = true
  ∧ (∀ c : GeoErrorCode, watcherTerminal (WatcherFailure.errCode c) = true →
        c = GeoErrorCode.permissionDenied) := by
  refine ⟨?_, ?_, ?_, rfl, rfl, rfl, ?_⟩
  · by_cases hi : s.isInitialLoad <;> simp [deliver, step, geoErrorHandler, h, hi]
  · by_cases hi : s.isInitialLoad <;> simp [deliver, step, geoErrorHandler, h, hi]
  · by_cases hi : s.isInitialLoad <;>
      simp [deliver, step, geoErrorHandler, geoSampleHandler, h, hi]
  · intro c hc
    cases c <;> simp_all [watcherTerminal]

/-- Witness for C9 at a concrete mounted state: after a timeout the
watch is still active and a later sample is delivered and recorded. -/
theorem timeout_not_terminal_witness :
    (deliver (mount (initState false) true 7)
        (MEvent.geoErr GeoErrorCode.timeout)).watchActive = true
  ∧ (deliver (deliver (mount (initState false) true 7)
        (MEvent.geoErr GeoErrorCode.timeout))
        (MEvent.geoSample 1 2)).currentUserPosition = some (1, 2) :=
  ⟨(timeout_not_terminal (mount (initState false) true 7) 1 2 (by decide)).1,
   (timeout_not_terminal (mount (initState false) true 7) 1 2 (by decide)).2.2.1⟩

/-- C10: after clicking an issue, which captures the issue object in
the selection, any later feed snapshot replaces the issues list (and
hence the marker point set) but leaves the selection untouched, so the
open detail popup keeps rendering the object captured at click time
even when the snapshot carries a modified record with the same id. -/
theorem popup_captures_click_object (s : MapState) (i : Issue) (docs : List RawDoc) :
    popupIssue (step (handlePinClick s i).1 (MEvent.feedSnapshot docs)) = some i
  ∧ (step (handlePinClick s i).1 (MEvent.feedSnapshot docs)).issues = snapshotIssues docs
  ∧ (∀ s2 : MapState, popupIssue (step s2 (MEvent.feedSnapshot docs)) = popupIssue s2) :=
  ⟨rfl, rfl, fun _ => rfl⟩

/-- Index point at the origin carrying issue a. -/
def pA0 : IdxPoint := ⟨0, 0, issueA⟩

/-- Index point at the origin carrying issue b, coincident with pA0. -/
def pB0 : IdxPoint := ⟨0, 0, issueB⟩

/-- Index point 1000 worldZoom pixels from the origin: within the
cluster radius of pA0 at zoom 10 and outside it at zoom 20. -/
def pC : IdxPoint := ⟨0, 1000, issueB⟩

/-- C2 amended: for two records whose pixel distance at zoom 10 is
within the cluster radius, the query at zoom 10 returns exactly one
aggregate cluster with pointCount 2; the query at zoom 20 returns two
leaves provided their pixel distance at zoom 20 exceeds the radius —
zoom 20 equals the configured maxZoom, so merging is still performed
there — while above the threshold, at zoom 21, two leaves are returned
unconditionally. -/
theorem two_point_cluster (p q : IdxPoint)
    (h10 : withinRadius mapViewOptions 10 p q = true)
    (h20 : withinRadius mapViewOptions 20 p q = false) :
    clusterQuery mapViewOptions [p, q] 10 =
      [SCluster.agg (centroid [p, q]).1 (centroid [p, q]).2 2 [p, q]]
  ∧ (clusterQuery mapViewOptions [p, q] 10).length = 1
  ∧ ((clusterQuery mapViewOptions [p, q] 10).map SCluster.count) = [2]
  ∧ ((clusterQuery mapViewOptions [p, q] 10).map SCluster.isAggregate) = [true]
  ∧ clusterQuery mapViewOptions [p, q] 20 = [SCluster.leaf p, SCluster.leaf q]
  ∧ clusterQuery mapViewOptions [p, q] 21 = [SCluster.leaf p, SCluster.leaf q] := by
  have h10a : withinRadius { radius := 75, maxZoom := 20 } 10 p q = true := h10
  have h20a : withinRadius { radius := 75, maxZoom := 20 } 20 p q = false := h20
  have hq10 : clusterQuery mapViewOptions [p, q] 10 =
      [SCluster.agg (centroid [p, q]).1 (centroid [p, q]).2 2 [p, q]] := by
    simp [clusterQuery, mapViewOptions, greedyAux, List.filter_cons, h10, h10a]
  have hq20 : clusterQuery mapViewOptions [p, q] 20 =
      [SCluster.leaf p, SCluster.leaf q] := by
    simp [clusterQuery, mapViewOptions, greedyAux, List.filter_cons, h20, h20a]
  refine ⟨hq10, ?_, ?_, ?_, hq20, rfl⟩
  · rw [hq10]; rfl
  · rw [hq10]; rfl
  · rw [hq10]; rfl

/-- Witness for C2 amended at two concrete points 1.5 zoom-0 pixel
hundredths apart: within the radius at zoom 10 and outside it at zoom
20. -/
theorem two_point_cluster_witness :
    withinRadius mapViewOptions 10 pA0 pC = true
  ∧ withinRadius mapViewOptions 20 pA0 pC = false
  ∧ clusterQuery mapViewOptions [pA0, pC] 20 =
      [SCluster.leaf pA0, SCluster.leaf pC] :=
  ⟨by decide, by decide,
   (two_point_cluster pA0 pC (by decide) (by decide)).2.2.2.2.1⟩

/-- C2 counterexample: two coincident records are within the radius at
zoom 10, yet the query at zoom 20 still merges them into one
aggregate: zoom 20 equals the configured maxZoom, at which merging is
still enabled, so the query does not return two leaves there. -/
theorem zoom20_still_merges_cex :
    withinRadius mapViewOptions 10 pA0 pB0 = true
  ∧ (clusterQuery mapViewOptions [pA0, pB0] 20).map SCluster.isAggregate = [true]
  ∧ (clusterQuery mapViewOptions [pA0, pB0] 20).map SCluster.count = [2] := by
  refine ⟨?_, ?_, ?_⟩ <;> decide

/-- C8 amended: tapping a cluster issues a fly-to to the cluster
centroid at the precomputed expansion zoom clamped by Math.min(_, 20),
and leaves the whole component state, in particular the selection,
unchanged. -/
theorem cluster_click_state_and_zoom (s : MapState) (members : List IdxPoint)
    (cx cy : ℚ) :
    (clusterOnClick s members cx cy).1 = s
  ∧ (clusterOnClick s members cx cy).1.selectedIssue = s.selectedIssue
  ∧ (clusterOnClick s members cx cy).2.centerLng = cx
  ∧ (clusterOnClick s members cx cy).2.centerLat = cy
  ∧ (clusterOnClick s members cx cy).2.zoom =
      ((min (getClusterExpansionZoom mapViewOptions members) 20 : ℕ) : ℚ) :=
  ⟨rfl, rfl, rfl, rfl, rfl⟩

/-- C8 counterexample: a cluster of two coincident records never
splits while merging is enabled, so its precomputed expansion zoom is
21; the tap handler clamps it with Math.min(_, 20) and issues the
fly-to at zoom 20, not at the precomputed expansion zoom. -/
theorem cluster_click_clamp_cex :
    getClusterExpansionZoom mapViewOptions [pA0, pB0] = 21
  ∧ (clusterOnClick (initState false) [pA0, pB0] 0 0).2.zoom = 20
  ∧ (clusterOnClick (initState false) [pA0, pB0] 0 0).2.zoom ≠
      ((getClusterExpansionZoom mapViewOptions [pA0, pB0] : ℕ) : ℚ) := by
  refine ⟨?_, ?_, ?_⟩ <;> decide

end CivicConnect
